import Mathlib

/-
Verification of the "Web Weavers" text-to-SQL pipeline (src/app.py).

Shallow embedding: the two tool functions (SchemaInfoTool.run,
SQLExecutionTool.run), the startup database-registry scan, and the
Streamlit button handler are translated into pure Lean functions.
sqlite3 is abstracted as a deterministic engine function from
(database path, sql text) to either (column names, rows) or an error
message; connection open/close and the diagnostic print are made
observable as an event list and a log list on the returned outcome.
-/

namespace WebWeavers

/-- A SQLite cell value (the subset needed for the scenarios). -/
inductive SqlValue where
  | nullV : SqlValue
  | intV : Int → SqlValue
  | textV : String → SqlValue
deriving DecidableEq, Repr

/-- A result row, as returned by cursor.fetchall(). -/
abbrev Row := List SqlValue

/-- First-match lookup in an association list, modelling a Python dict
whose keys were inserted at most once. -/
def lookupStr {α : Type} (l : List (String × α)) (k : String) : Option α :=
  match l with
  | [] => none
  | (k1, v) :: rest => if k1 = k then some v else lookupStr rest k

/-- The dict returned by SQLExecutionTool.run (src/app.py lines 64-87).
Each field is Option-valued because the three return branches carry
different key sets: the unknown-db branch has error/sql_query/db_id,
the other branches have columns/rows/db_id/sql_query and no error key. -/
structure ExecResultDict where
  error : Option String := none
  columns : Option (List String) := none
  rows : Option (List Row) := none
  db_id : Option String := none
  sql_query : Option String := none
deriving DecidableEq, Repr

/-- Connection lifecycle events of one SQLExecutionTool.run call. -/
inductive ConnEvent where
  | openConn : String → ConnEvent
  | closeConn : String → ConnEvent
deriving DecidableEq, Repr

/-- Observable outcome of one SQLExecutionTool.run call: the returned
dict, the lines printed to the console, and the connection events. -/
structure RunOutcome where
  result : ExecResultDict
  log : List String
  events : List ConnEvent
deriving DecidableEq, Repr

/-- The sqlite3 engine, abstracted: given the database file path and the
sql text it yields either (column names from cursor.description, rows
from fetchall) or the message of the raised exception. A fixed engine
function models a fixed database state (queries are read-only). -/
abbrev SqlEngine := String → String → Except String (List String × List Row)

/-- SQLExecutionTool.run (src/app.py lines 64-87). If db_id is not in
db_map, return the error dict at once. Otherwise connect, execute
inside try/except (on exception print a diagnostic; columns and rows
keep their initial empty values), close in finally, and return the
columns/rows dict, which carries no error key on either branch. -/
def SQLExecutionTool.run (db_map : List (String × String)) (engine : SqlEngine)
    (sql_query : String) (db_id : String) : RunOutcome :=
  match lookupStr db_map db_id with
  | none =>
      { result := { error := some ("No database found for db_id=" ++ db_id),
                    sql_query := some sql_query, db_id := some db_id },
        log := [], events := [] }
  | some db_path =>
      match engine db_path sql_query with
      | Except.ok (cols, rows) =>
          { result := { columns := some cols, rows := some rows,
                        db_id := some db_id, sql_query := some sql_query },
            log := [],
            events := [ConnEvent.openConn db_path, ConnEvent.closeConn db_path] }
      | Except.error e =>
          { result := { columns := some [], rows := some [],
                        db_id := some db_id, sql_query := some sql_query },
            log := ["Error executing query: " ++ e],
            events := [ConnEvent.openConn db_path, ConnEvent.closeConn db_path] }

/-- A schema description: table name to column names, as stored in
data/schema_info.json. The empty description is the empty list,
modelling the Python default {}. -/
abbrev SchemaDescription := List (String × List String)

/-- The dict returned by SchemaInfoTool.run (src/app.py lines 47-54). -/
structure SchemaInfoOutput where
  schema_info : SchemaDescription
  db_id : String
  reasoning_type : String
  question : String
deriving DecidableEq, Repr

/-- SchemaInfoTool.run (src/app.py lines 47-54): a pure lookup of db_id
in the schema catalog, with the empty description as default, echoed
together with the inputs. -/
def SchemaInfoTool.run (schema_info : List (String × SchemaDescription))
    (question : String) (db_id : String) (reasoning_type : String) : SchemaInfoOutput :=
  { schema_info := (lookupStr schema_info db_id).getD [],
    db_id := db_id, reasoning_type := reasoning_type, question := question }

/-- One entry of os.listdir(BASE_DIR) with the file-existence facts the
startup scan (src/app.py lines 25-33) consults: whether the entry is
a directory and whether <name>/<name>.sqlite and <name>/<name>.db exist. -/
structure DirEntry where
  name : String
  isDir : Bool
  hasSqlite : Bool
  hasDb : Bool
deriving DecidableEq, Repr

/-- The handle chosen for one directory entry by the scan body
(src/app.py lines 26-33): skip non-directories; prefer the .sqlite
file; else take the .db file; else record nothing. -/
def entryHandle (base : String) (e : DirEntry) : Option String :=
  if e.isDir then
    if e.hasSqlite then some (base ++ e.name ++ "/" ++ e.name ++ ".sqlite")
    else if e.hasDb then some (base ++ e.name ++ "/" ++ e.name ++ ".db")
    else none
  else none

/-- db_map as built by the startup loop (src/app.py lines 22-33) over
the directory listing, in listing order. -/
def build_db_map (base : String) (listing : List DirEntry) : List (String × String) :=
  listing.filterMap (fun e => (entryHandle base e).map (fun p => (e.name, p)))

/-- The function type of a crewai tool invoked as
tool.func(question=..., db_id=..., reasoning_type=...), returning a dict. -/
abbrev GenToolFunc := String → String → String → List (String × String)

/-- The tools of sql_generation_agent as constructed in src/app.py
lines 134-140: the Agent is created without a tools argument, so its
tool list is empty. -/
def sql_generation_agent_tools : List GenToolFunc := []

/-- Outcome of the Pick Random Question handler (src/app.py lines
200-244): either the script aborted because crew.kickoff raised, or it
completed with the full-path result, the vanilla generation dict, and
the vanilla execution outcome when one was produced. -/
inductive HandlerOutcome where
  | fatal : String → HandlerOutcome
  | completed : String → List (String × String) → Option RunOutcome → HandlerOutcome
deriving DecidableEq, Repr

/-- The button handler (src/app.py lines 210-244). crew.kickoff is
abstracted as an Except value; if it raises, the straight-line script
dies before the vanilla block. Otherwise vanilla_sql_res is
tools[0].func(question, db_id, reasoning_type) if the generation agent
has tools, else the empty dict; execution runs only when the key
sql_query is present in it. -/
def pick_question_handler (kickoff : Except String String)
    (genTools : List GenToolFunc) (db_map : List (String × String))
    (engine : SqlEngine) (question : String) (db_id : String)
    (reasoning_type : String) : HandlerOutcome :=
  match kickoff with
  | Except.error e => HandlerOutcome.fatal e
  | Except.ok result =>
      let vanilla_sql_res : List (String × String) :=
        match genTools with
        | [] => []
        | t :: _ => t question db_id reasoning_type
      match lookupStr vanilla_sql_res "sql_query" with
      | some q =>
          HandlerOutcome.completed result vanilla_sql_res
            (some (SQLExecutionTool.run db_map engine q db_id))
      | none => HandlerOutcome.completed result vanilla_sql_res none

/-- Modelled from the spec: the SQL Generation stage's runtime behavior
is not in src/app.py — lines 142-155 only declare the crewai Task, and
the stage body runs inside the external framework during crew.kickoff.
Per spec section 4.5, the stage fails with GenerationEmptyError when
the reasoning capability returns no text at all, and otherwise emits
the returned text unchanged as the SqlQuery, with no syntax validation. -/
inductive GenError where
  | GenerationEmptyError : GenError
deriving DecidableEq, Repr

/-- Modelled from the spec: the SQL Generation stage applied to the text
the reasoning capability returned (see the comment on GenError). -/
def sql_generation_stage (capabilityText : String) : Except GenError String :=
  if capabilityText = "" then Except.error GenError.GenerationEmptyError
  else Except.ok capabilityText

/-- Test fixture: a registry holding only film_db, as the scan would
produce it from data/database/film_db/film_db.sqlite. -/
def filmDbMap : List (String × String) :=
  [("film_db", "./data/database/film_db/film_db.sqlite")]

/-- Test fixture: the sqlite3 engine over the seeded film_db of spec
section 8 (one table films with one row), restricted to the two
scenario queries: the good query succeeds, anything else raises. -/
def filmEngine : SqlEngine := fun _path sql =>
  if sql = "SELECT title FROM films WHERE year = 2016" then
    Except.ok (["title"], [[SqlValue.textV "Arrival"]])
  else
    Except.error "no such table: nonexistent_table"

/-- Test fixture: an engine whose execution succeeds with no columns and
no rows (e.g. a statement with an empty result set). -/
def emptyOkEngine : SqlEngine := fun _path _sql => Except.ok ([], [])

/-- Test fixture: a directory listing with two database directories;
film_db has both candidate files, music_db only the .db file. -/
def sampleListing : List DirEntry :=
  [⟨"film_db", true, true, true⟩, ⟨"music_db", true, false, true⟩]

/-- Test fixture: the base directory of the scan. -/
def sampleBase : String := "./data/database/"

/-- Test fixture: the film_db directory entry, with both candidate files. -/
def sampleFilmEntry : DirEntry := ⟨"film_db", true, true, true⟩

/-- The keys of the built registry are drawn from the listing names, in
order: the registry key list is a sublist of the listing name list. -/
theorem build_db_map_keys_sublist (base : String) (listing : List DirEntry) :
    ((build_db_map base listing).map Prod.fst).Sublist (listing.map DirEntry.name) := by
  induction listing with
  | nil => simp [build_db_map]
  | cons e rest ih =>
    simp only [build_db_map, List.filterMap_cons, List.map_cons] at ih ⊢
    cases h : (entryHandle base e).map (fun p => (e.name, p)) with
    | none => exact List.Sublist.cons e.name ih
    | some pr =>
      have hname : pr.fst = e.name := by
        cases h2 : entryHandle base e with
        | none => rw [h2] at h; simp at h
        | some p => rw [h2] at h; simp at h; rw [← h]
      simp only [List.map_cons, hname]
      exact List.Sublist.cons₂ e.name ih

/-- Claim C1 counterexample: executing a failing query on the resolvable
film_db, the returned dict has NO error key (error is absent), while
columns and rows are the empty lists; so the claimed non-empty error
field is refuted at this concrete input. -/
theorem sql_execution_failure_error_absent :
    (SQLExecutionTool.run filmDbMap filmEngine "SELECT * FROM nonexistent_table" "film_db").result.error = none
    ∧ (SQLExecutionTool.run filmDbMap filmEngine "SELECT * FROM nonexistent_table" "film_db").result.columns = some []
    ∧ (SQLExecutionTool.run filmDbMap filmEngine "SELECT * FROM nonexistent_table" "film_db").result.rows = some [] := by
  refine ⟨?_, ?_, ?_⟩ <;> rfl

/-- Claim C1 (amended): for every resolvable db_id and every query whose
execution raises, SQLExecutionTool.run catches the exception, records
the diagnostic "Error executing query: <e>" on the log, closes the
connection, and returns a dict with empty columns, empty rows, the
inputs echoed, and no error key; the exception is never propagated. -/
theorem sql_execution_failure_recovered (db_map : List (String × String))
    (engine : SqlEngine) (sql_query db_id db_path e : String)
    (hres : lookupStr db_map db_id = some db_path)
    (heng : engine db_path sql_query = Except.error e) :
    SQLExecutionTool.run db_map engine sql_query db_id =
      { result := { columns := some [], rows := some [],
                    db_id := some db_id, sql_query := some sql_query },
        log := ["Error executing query: " ++ e],
        events := [ConnEvent.openConn db_path, ConnEvent.closeConn db_path] } := by
  simp [SQLExecutionTool.run, hres, heng]

/-- Witness for sql_execution_failure_recovered at the film_db fixture
and the nonexistent-table query. -/
theorem sql_execution_failure_recovered_witness :
    SQLExecutionTool.run filmDbMap filmEngine "SELECT * FROM nonexistent_table" "film_db" =
      { result := { columns := some [], rows := some [],
                    db_id := some "film_db", sql_query := some "SELECT * FROM nonexistent_table" },
        log := ["Error executing query: " ++ "no such table: nonexistent_table"],
        events := [ConnEvent.openConn "./data/database/film_db/film_db.sqlite",
                   ConnEvent.closeConn "./data/database/film_db/film_db.sqlite"] } :=
  sql_execution_failure_recovered filmDbMap filmEngine
    "SELECT * FROM nonexistent_table" "film_db"
    "./data/database/film_db/film_db.sqlite" "no such table: nonexistent_table"
    rfl rfl

/-- Claim C2 counterexample: for the absent db_id missing_db the error
string is "No database found for db_id=missing_db" with a capital N,
not the claimed lowercase "no database found for db_id=missing_db". -/
theorem unknown_db_error_message_case :
    (SQLExecutionTool.run filmDbMap filmEngine "SELECT 1" "missing_db").result.error ≠
      some "no database found for db_id=missing_db"
    ∧ (SQLExecutionTool.run filmDbMap filmEngine "SELECT 1" "missing_db").result.error =
      some "No database found for db_id=missing_db" := by
  refine ⟨?_, ?_⟩ <;> decide

/-- Claim C2 (amended): for every db_id absent from the registry,
SQLExecutionTool.run returns at once — no connection opened, nothing
logged, nothing raised — a dict whose error is
"No database found for db_id=<db_id>" (capital N), with the inputs
echoed and no columns/rows keys. -/
theorem unknown_db_returns_error_immediately (db_map : List (String × String))
    (engine : SqlEngine) (sql_query db_id : String)
    (hres : lookupStr db_map db_id = none) :
    SQLExecutionTool.run db_map engine sql_query db_id =
      { result := { error := some ("No database found for db_id=" ++ db_id),
                    sql_query := some sql_query, db_id := some db_id },
        log := [], events := [] } := by
  simp [SQLExecutionTool.run, hres]

/-- Witness for unknown_db_returns_error_immediately at db_id missing_db. -/
theorem unknown_db_returns_error_immediately_witness :
    SQLExecutionTool.run filmDbMap filmEngine "SELECT 1" "missing_db" =
      { result := { error := some ("No database found for db_id=" ++ "missing_db"),
                    sql_query := some "SELECT 1", db_id := some "missing_db" },
        log := [], events := [] } :=
  unknown_db_returns_error_immediately filmDbMap filmEngine "SELECT 1" "missing_db" rfl

/-- Claim C3 counterexample: with the source's empty tool list on
sql_generation_agent, a successful full-path run completes with the
empty vanilla dict and NO baseline execution outcome; and when the
full path raises, the handler aborts before the baseline block runs.
Both halves refute the claimed always-produced, independent baseline. -/
theorem no_baseline_execution_result :
    pick_question_handler (Except.ok "FULL_RESULT") sql_generation_agent_tools
        filmDbMap filmEngine "Which films are from 2016?" "film_db" "commonsense"
      = HandlerOutcome.completed "FULL_RESULT" [] none
    ∧ pick_question_handler (Except.error "LinkingParseError") sql_generation_agent_tools
        filmDbMap filmEngine "Which films are from 2016?" "film_db" "commonsense"
      = HandlerOutcome.fatal "LinkingParseError" := by
  refine ⟨?_, ?_⟩ <;> rfl

/-- Claim C3 (amended): the baseline block runs only after crew.kickoff
returns without raising; it calls the first tool of
sql_generation_agent if any, but that agent is constructed with no
tools, so the vanilla dict is empty, no sql_query key is found, and no
baseline execution is performed; when kickoff raises, the handler
aborts with that error and the baseline block is never reached. -/
theorem vanilla_baseline_behavior (db_map : List (String × String))
    (engine : SqlEngine) (question db_id reasoning_type full e : String) :
    pick_question_handler (Except.ok full) sql_generation_agent_tools
        db_map engine question db_id reasoning_type
      = HandlerOutcome.completed full [] none
    ∧ pick_question_handler (Except.error e) sql_generation_agent_tools
        db_map engine question db_id reasoning_type
      = HandlerOutcome.fatal e := by
  refine ⟨?_, ?_⟩ <;> rfl

/-- Claim C4: the SQL Generation stage (modelled from the spec, see
sql_generation_stage) fails with GenerationEmptyError exactly when the
reasoning capability returns the empty string, and otherwise emits the
returned text unchanged as the SqlQuery, with no syntax validation. -/
theorem sql_generation_contract (s : String) (h : s ≠ "") :
    sql_generation_stage "" = Except.error GenError.GenerationEmptyError
    ∧ sql_generation_stage s = Except.ok s := by
  refine ⟨rfl, ?_⟩
  unfold sql_generation_stage
  rw [if_neg h]

/-- Witness for sql_generation_contract at a syntactically invalid but
non-empty capability output. -/
theorem sql_generation_contract_witness :
    sql_generation_stage "" = Except.error GenError.GenerationEmptyError
    ∧ sql_generation_stage "SELEC oops" = Except.ok "SELEC oops" :=
  sql_generation_contract "SELEC oops" (by decide)

/-- Claim C5: SchemaInfoTool.run is a pure lookup: it echoes question,
db_id and reasoning_type unchanged and returns the catalog description
for db_id, which is the empty description when db_id is unknown
(lookupStr yielding none makes getD produce []); it never fails and
has no side effects (it is a total pure function of its inputs). -/
theorem schema_retrieval_contract (schema_info : List (String × SchemaDescription))
    (question db_id reasoning_type : String) :
    (SchemaInfoTool.run schema_info question db_id reasoning_type).question = question
    ∧ (SchemaInfoTool.run schema_info question db_id reasoning_type).db_id = db_id
    ∧ (SchemaInfoTool.run schema_info question db_id reasoning_type).reasoning_type = reasoning_type
    ∧ (SchemaInfoTool.run schema_info question db_id reasoning_type).schema_info
        = (lookupStr schema_info db_id).getD [] := by
  exact ⟨rfl, rfl, rfl, rfl⟩

/-- Claim C6: the registry maps each db_id to at most one handle — under
the filesystem guarantee that os.listdir yields distinct names, the
key list of the built db_map has no duplicates — and the choice per
directory is deterministic with the .sqlite file taking precedence:
whenever <db_id>.sqlite exists the chosen handle is the .sqlite path,
regardless of whether <db_id>.db also exists. -/
theorem db_registry_unique_sqlite_precedence (base : String) (listing : List DirEntry)
    (hnd : (listing.map DirEntry.name).Nodup)
    (e : DirEntry) (hdir : e.isDir = true) (hsql : e.hasSqlite = true) :
    ((build_db_map base listing).map Prod.fst).Nodup
    ∧ entryHandle base e = some (base ++ e.name ++ "/" ++ e.name ++ ".sqlite") := by
  constructor
  · exact (build_db_map_keys_sublist base listing).nodup hnd
  · simp [entryHandle, hdir, hsql]

/-- Witness for db_registry_unique_sqlite_precedence at the sample
listing, with film_db holding both candidate files. -/
theorem db_registry_unique_sqlite_precedence_witness :
    ((build_db_map sampleBase sampleListing).map Prod.fst).Nodup
    ∧ entryHandle sampleBase sampleFilmEntry
        = some (sampleBase ++ sampleFilmEntry.name ++ "/" ++ sampleFilmEntry.name ++ ".sqlite") :=
  db_registry_unique_sqlite_precedence sampleBase sampleListing (by decide)
    sampleFilmEntry rfl rfl

/-- Claim C7: whenever db_id resolves to a handle, the connection opened
for the call is closed on every exit path: the event trace is exactly
open then close, whatever the engine does — the conclusion does not
depend on whether execution succeeds or raises, since conn.close()
sits in the finally block. -/
theorem connection_closed_on_every_path (db_map : List (String × String))
    (engine : SqlEngine) (sql_query db_id db_path : String)
    (hres : lookupStr db_map db_id = some db_path) :
    (SQLExecutionTool.run db_map engine sql_query db_id).events
      = [ConnEvent.openConn db_path, ConnEvent.closeConn db_path] := by
  simp only [SQLExecutionTool.run, hres]
  cases h : engine db_path sql_query with
  | ok v => obtain ⟨cols, rows⟩ := v; simp [h]
  | error e => simp [h]

/-- Witness for connection_closed_on_every_path at the film_db fixture
and a failing query. -/
theorem connection_closed_on_every_path_witness :
    (SQLExecutionTool.run filmDbMap filmEngine "SELECT * FROM nonexistent_table" "film_db").events
      = [ConnEvent.openConn "./data/database/film_db/film_db.sqlite",
         ConnEvent.closeConn "./data/database/film_db/film_db.sqlite"] :=
  connection_closed_on_every_path filmDbMap filmEngine
    "SELECT * FROM nonexistent_table" "film_db"
    "./data/database/film_db/film_db.sqlite" rfl

/-- Claim C8: for a resolvable db_id and a fixed database state — two
engines that agree on the resolved database file — two calls of
SQLExecutionTool.run with the same sql_query and db_id return equal
columns and equal rows: the call reads no other state and writes none,
so the result depends only on the registry, the database state at the
resolved path, and the inputs. -/
theorem execution_deterministic (db_map : List (String × String))
    (engine1 engine2 : SqlEngine) (sql_query db_id db_path : String)
    (hres : lookupStr db_map db_id = some db_path)
    (hstate : ∀ q : String, engine1 db_path q = engine2 db_path q) :
    (SQLExecutionTool.run db_map engine1 sql_query db_id).result.columns
      = (SQLExecutionTool.run db_map engine2 sql_query db_id).result.columns
    ∧ (SQLExecutionTool.run db_map engine1 sql_query db_id).result.rows
      = (SQLExecutionTool.run db_map engine2 sql_query db_id).result.rows := by
  simp only [SQLExecutionTool.run, hres]
  rw [hstate sql_query]
  exact ⟨rfl, rfl⟩

/-- Witness for execution_deterministic: two calls against the same
film_db engine agree on columns and rows for the scenario query. -/
theorem execution_deterministic_witness :
    (SQLExecutionTool.run filmDbMap filmEngine "SELECT title FROM films WHERE year = 2016" "film_db").result.columns
      = (SQLExecutionTool.run filmDbMap filmEngine "SELECT title FROM films WHERE year = 2016" "film_db").result.columns
    ∧ (SQLExecutionTool.run filmDbMap filmEngine "SELECT title FROM films WHERE year = 2016" "film_db").result.rows
      = (SQLExecutionTool.run filmDbMap filmEngine "SELECT title FROM films WHERE year = 2016" "film_db").result.rows :=
  execution_deterministic filmDbMap filmEngine filmEngine
    "SELECT title FROM films WHERE year = 2016" "film_db"
    "./data/database/film_db/film_db.sqlite" rfl (fun _ => rfl)

/-- Claim C9: with db_id present in the registry the returned dict never
carries an error key — for every engine the error field is none — and
a failed execution is observationally identical at the interface to a
successful execution yielding empty columns and empty rows: the two
returned dicts are equal. -/
theorem execution_failure_observationally_silent (db_map : List (String × String))
    (engine okEngine : SqlEngine) (sql_query db_id db_path e : String)
    (hres : lookupStr db_map db_id = some db_path)
    (heng : engine db_path sql_query = Except.error e)
    (hok : okEngine db_path sql_query = Except.ok ([], [])) :
    (∀ eng : SqlEngine, (SQLExecutionTool.run db_map eng sql_query db_id).result.error = none)
    ∧ (SQLExecutionTool.run db_map engine sql_query db_id).result
        = (SQLExecutionTool.run db_map okEngine sql_query db_id).result := by
  constructor
  · intro eng
    simp only [SQLExecutionTool.run, hres]
    cases h : eng db_path sql_query with
    | ok v => obtain ⟨cols, rows⟩ := v; simp [h]
    | error e2 => simp [h]
  · simp [SQLExecutionTool.run, hres, heng, hok]

/-- Witness for execution_failure_observationally_silent: the failing
nonexistent-table query on film_db yields an error-free dict equal to
the dict of an empty successful execution. -/
theorem execution_failure_observationally_silent_witness :
    (SQLExecutionTool.run filmDbMap filmEngine "SELECT * FROM nonexistent_table" "film_db").result.error = none
    ∧ (SQLExecutionTool.run filmDbMap filmEngine "SELECT * FROM nonexistent_table" "film_db").result
        = (SQLExecutionTool.run filmDbMap emptyOkEngine "SELECT * FROM nonexistent_table" "film_db").result :=
  have h := execution_failure_observationally_silent filmDbMap filmEngine emptyOkEngine
    "SELECT * FROM nonexistent_table" "film_db"
    "./data/database/film_db/film_db.sqlite" "no such table: nonexistent_table"
    rfl rfl rfl
  ⟨h.1 filmEngine, h.2⟩

/-- Claim C10: every branch of SQLExecutionTool.run — unknown db_id,
successful execution, failed execution — echoes the input sql_query
and db_id unchanged in the returned dict. -/
theorem run_echoes_inputs (db_map : List (String × String)) (engine : SqlEngine)
    (sql_query db_id : String) :
    (SQLExecutionTool.run db_map engine sql_query db_id).result.sql_query = some sql_query
    ∧ (SQLExecutionTool.run db_map engine sql_query db_id).result.db_id = some db_id := by
  cases hl : lookupStr db_map db_id with
  | none => simp [SQLExecutionTool.run, hl]
  | some db_path =>
    cases h : engine db_path sql_query with
    | ok v => obtain ⟨cols, rows⟩ := v; simp [SQLExecutionTool.run, hl, h]
    | error e => simp [SQLExecutionTool.run, hl, h]

end WebWeavers
